import Mathlib

/-!
Verification development for the FRC-2025-Interface virtual-controller
bridge (src/addons/frc_interface/src/virtual_controller.rs and lib.rs).

The Rust code is shallowly embedded: the button-state store is a record of
nine booleans, the update-loop body is a pure step function over (previous
state, snapshot, push outcome), the controller lifecycle is a record
transformer, and the external device/bus operations are oracles passed in
as explicit parameters.
-/

namespace FRC

/-- The button state store of virtual_controller.rs (struct ButtonState):
nine logical booleans, all defaulting to false. -/
@[ext]
structure ButtonState where
  climb : Bool
  zero : Bool
  intake : Bool
  high : Bool
  mid : Bool
  low : Bool
  coral : Bool
  intake_alga : Bool
  drop_alga : Bool
deriving DecidableEq, Repr

/-- ButtonState::default(): every field false. -/
def ButtonState.default : ButtonState :=
  ⟨false, false, false, false, false, false, false, false, false⟩

/-- VirtualController::set_button: match on the logical name, write the
field for a known name, leave the store unchanged (a warning is logged)
for an unknown name. -/
def set_button (s : ButtonState) (button : String) (pressed : Bool) : ButtonState :=
  match button with
  | "climb" => { s with climb := pressed }
  | "zero" => { s with zero := pressed }
  | "intake" => { s with intake := pressed }
  | "high" => { s with high := pressed }
  | "mid" => { s with mid := pressed }
  | "low" => { s with low := pressed }
  | "coral" => { s with coral := pressed }
  | "intake_alga" => { s with intake_alga := pressed }
  | "drop_alga" => { s with drop_alga := pressed }
  | _ => s

/-- Read the field of the store named by a logical button name. -/
def getButton (s : ButtonState) (button : String) : Bool :=
  match button with
  | "climb" => s.climb
  | "zero" => s.zero
  | "intake" => s.intake
  | "high" => s.high
  | "mid" => s.mid
  | "low" => s.low
  | "coral" => s.coral
  | "intake_alga" => s.intake_alga
  | "drop_alga" => s.drop_alga
  | _ => false

/-- The nine known logical button names. -/
def knownNames : List String :=
  ["climb", "zero", "intake", "high", "mid", "low", "coral", "intake_alga", "drop_alga"]

/-- Apply a sequence of set_button calls to a store, in order. -/
def applyAll (ops : List (String × Bool)) (s : ButtonState) : ButtonState :=
  ops.foldl (fun t p => set_button t p.1 p.2) s

/-- The last value set for a given name in a sequence of calls, if any. -/
def lastSet (name : String) : List (String × Bool) → Option Bool
  | [] => none
  | (n, v) :: rest =>
    match lastSet name rest with
    | some w => some w
    | none => if n = name then some v else none

/- The hardware button-bit constants used by the translation
(vigem_client XButtons, XUSB wired Xbox-360 report layout). -/
namespace XButtons

def UP : Nat := 0x0001
def DOWN : Nat := 0x0002
def LEFT : Nat := 0x0004
def RIGHT : Nat := 0x0008
def START : Nat := 0x0010
def BACK : Nat := 0x0020
def LB : Nat := 0x0100
def RB : Nat := 0x0200
def B : Nat := 0x2000

end XButtons

/-- The hardware gamepad frame (vigem_client XGamepad): a button bitmask
plus trigger and thumb-stick fields. -/
@[ext]
structure XGamepad where
  buttons : Nat
  left_trigger : Nat
  right_trigger : Nat
  thumb_lx : Int
  thumb_ly : Int
  thumb_rx : Int
  thumb_ry : Int
deriving DecidableEq, Repr

/-- XGamepad::default(): all fields zero / neutral, no button bits set. -/
def XGamepad.neutral : XGamepad := ⟨0, 0, 0, 0, 0, 0, 0⟩

/-- The logical-to-hardware bitmask accumulation from the update-loop body
(virtual_controller.rs lines 101-130): start from 0 and OR in one fixed
bit per pressed logical button, in source order. -/
def buttonMask (s : ButtonState) : Nat :=
  let v : Nat := 0
  let v := if s.climb then v ||| XButtons.START else v
  let v := if s.zero then v ||| XButtons.BACK else v
  let v := if s.intake then v ||| XButtons.RIGHT else v
  let v := if s.high then v ||| XButtons.UP else v
  let v := if s.mid then v ||| XButtons.LEFT else v
  let v := if s.low then v ||| XButtons.DOWN else v
  let v := if s.coral then v ||| XButtons.B else v
  let v := if s.intake_alga then v ||| XButtons.LB else v
  let v := if s.drop_alga then v ||| XButtons.RB else v
  v

/-- The frame built each changed tick: the accumulated mask together with
default values for every other gamepad field (XGamepad with buttons,
rest ..Default::default()). -/
def mkFrame (s : ButtonState) : XGamepad :=
  { XGamepad.neutral with buttons := buttonMask s }

/-- The store with exactly coral and intake_alga pressed (the scenario of
the spec). -/
def coralIntakeAlga : ButtonState :=
  { ButtonState.default with coral := true, intake_alga := true }

/-- The field-by-field change test of the update loop
(virtual_controller.rs lines 89-97). -/
def stateChanged (cur last : ButtonState) : Bool :=
  cur.climb != last.climb
    || cur.zero != last.zero
    || cur.intake != last.intake
    || cur.high != last.high
    || cur.mid != last.mid
    || cur.low != last.low
    || cur.coral != last.coral
    || cur.intake_alga != last.intake_alga
    || cur.drop_alga != last.drop_alga

/-- The log line emitted when target.update fails inside the loop. -/
def pushFailLog : String := "Failed to update virtual controller"

/-- One iteration body of the update loop, from (previous state, snapshot,
outcome of the attempted push): if the snapshot differs from the previous
state, the frame is computed and pushed (a failed push only logs), and the
previous state is recorded as the snapshot regardless of the push outcome;
if unchanged, nothing is pushed and the previous state is kept.
Returns (new previous state, pushed frame if any, log lines). -/
def tickFull (last cur : ButtonState) (pushOk : Bool) :
    ButtonState × Option XGamepad × List String :=
  if stateChanged cur last then
    (cur, some (mkFrame cur), if pushOk then [] else [pushFailLog])
  else
    (last, none, [])

/-- The update loop as a function of the observation sequence: each
iteration first reads the running flag; if it is true the loop body runs
on the snapshot (with the given push outcome) and the loop continues,
if it is false the loop exits at once. Returns the pushed frames. -/
def loopRun : ButtonState → List (Bool × ButtonState × Bool) → List XGamepad
  | _, [] => []
  | last, (flag, snap, ok) :: rest =>
    if flag then
      ((tickFull last snap ok).2.1).toList ++ loopRun (tickFull last snap ok).1 rest
    else []

/-- The VirtualController record: device handles, loop thread handle,
running flag and the shared button store (handles are abstracted to
Option Unit, presence only). -/
structure VirtualController where
  client : Option Unit
  target : Option Unit
  control_thread : Option Unit
  running : Bool
  button_state : ButtonState
deriving DecidableEq

/-- VirtualController::new(): no handles, flag false, default store. -/
def VirtualController.new : VirtualController :=
  { client := none, target := none, control_thread := none,
    running := false, button_state := ButtonState.default }

/-- Outcomes of the three external device operations attempted by
VirtualController::initialize: bus connect, target plugin, wait_ready. -/
structure InitEnv where
  connect_ok : Bool
  plugin_ok : Bool
  wait_ready_ok : Bool

/-- VirtualController::initialize, with the device operations given by
the environment: on connect failure, plugin failure or wait_ready failure
it returns false having mutated nothing (the failing paths return before
any field of self is assigned); on success it stores the target handle,
sets the running flag and spawns the loop thread, returning true. -/
def initCtrl (env : InitEnv) (c : VirtualController) : Bool × VirtualController :=
  if env.connect_ok then
    if env.plugin_ok then
      if env.wait_ready_ok then
        (true, { c with target := some (), running := true, control_thread := some () })
      else (false, c)
    else (false, c)
  else (false, c)

/-- Facade set_button: delegates to the store. -/
def VirtualController.setButton (c : VirtualController) (name : String) (v : Bool) :
    VirtualController :=
  { c with button_state := set_button c.button_state name v }

/-- VirtualController::shutdown: if the running flag is set, clear it,
take and join the thread handle, and drop the target and client handles;
otherwise do nothing. -/
def shutdown (c : VirtualController) : VirtualController :=
  if c.running then
    { c with running := false, control_thread := none, target := none, client := none }
  else c

/-- Drop for VirtualController: calls self.shutdown(); the record state at
the end of the object lifetime. -/
def dropCtrl (c : VirtualController) : VirtualController := shutdown c

/-- States reachable through the public lifecycle satisfy: when the
running flag is down, no target handle is held. -/
def VirtualController.inv (c : VirtualController) : Prop :=
  c.running = false → c.target = none

/-- The observable actions of shutdown, in program order. -/
inductive SAction where
  | storeFlagFalse
  | joinThread
  | clearTarget
  | clearClient
deriving DecidableEq, Repr

/-- The action trace of VirtualController::shutdown: when running, it
stores false to the flag, joins the thread (when a handle is held), then
clears the target and client handles, in that order; otherwise nothing. -/
def shutdownTrace (c : VirtualController) : List SAction :=
  if c.running then
    [SAction.storeFlagFalse]
      ++ (if c.control_thread.isSome then [SAction.joinThread] else [])
      ++ [SAction.clearTarget, SAction.clearClient]
  else []

/-- The slice of FRCInterfaceBase (lib.rs) relevant to button events: the
connected flag, whether a virtual controller was stored by ready(), and
the controller's button store. -/
structure UIState where
  connected : Bool
  has_controller : Bool
  store : ButtonState
deriving DecidableEq

/-- FRCInterfaceBase::on_button_pressed: when not connected, log a warning
and return without touching the store; otherwise, if a controller is
present, set the button true. -/
def on_button_pressed (u : UIState) (name : String) : UIState :=
  if u.connected = false then u
  else if u.has_controller then { u with store := set_button u.store name true }
  else u

/-- FRCInterfaceBase::on_button_released: when not connected, return
without touching the store; otherwise, if a controller is present, set the
button false. -/
def on_button_released (u : UIState) (name : String) : UIState :=
  if u.connected = false then u
  else if u.has_controller then { u with store := set_button u.store name false }
  else u

/-- A socket address (ip octets, port). -/
structure SockAddr where
  ip : List Nat
  port : Nat
deriving DecidableEq, Repr

/-- The hard-coded substitute address of ping_tcp_server's
unwrap_or_else: 127.0.0.1 port 22. -/
def fallbackAddr : SockAddr := ⟨[127, 0, 0, 1], 22⟩

/-- The log line emitted when the configured address fails to parse. -/
def invalidAddrLog : String := "Invalid address format"

/-- FRCInterfaceBase::ping_tcp_server, with the parse outcome of the
configured address and the reachability probe given as parameters: when
force_connected is set, connected becomes true and no probe is made;
otherwise the probe target is the parsed address or, if parsing failed
(an error is logged), the fallback 127.0.0.1:22, and connected becomes
true exactly when the probe of that target succeeds.
Returns (new connected flag, probed address if any, log lines). -/
def pingTcp (force _conn : Bool) (parsed : Option SockAddr) (reach : SockAddr → Bool) :
    Bool × Option SockAddr × List String :=
  if force then (true, none, [])
  else
    let parseLogs := if parsed.isNone then [invalidAddrLog] else []
    let target := parsed.getD fallbackAddr
    if reach target then (true, some target, parseLogs)
    else (false, some target, parseLogs)

/-! ## Button State Store lemmas -/

/-- Setting a known name writes exactly that field. -/
theorem getButton_set_self {name : String} (h : name ∈ knownNames)
    (s : ButtonState) (v : Bool) : getButton (set_button s name v) name = v := by
  fin_cases h <;> rfl

/-- Setting any name leaves every other known field unchanged. -/
theorem getButton_set_other {name other : String} (h : other ∈ knownNames)
    (hne : name ≠ other) (s : ButtonState) (v : Bool) :
    getButton (set_button s name v) other = getButton s other := by
  fin_cases h <;>
    · unfold set_button
      split <;> simp_all [getButton]

/-- Setting an unknown name leaves the store unchanged. -/
theorem set_button_unknown {name : String} (h : name ∉ knownNames)
    (s : ButtonState) (v : Bool) : set_button s name v = s := by
  unfold set_button
  split <;> simp_all [knownNames]

/-- A known field after a whole sequence of calls is the last value set,
defaulting to its initial value. -/
theorem applyAll_getButton {name : String} (h : name ∈ knownNames) :
    ∀ (ops : List (String × Bool)) (s : ButtonState),
      getButton (applyAll ops s) name = (lastSet name ops).getD (getButton s name) := by
  intro ops
  induction ops with
  | nil => intro s; rfl
  | cons p rest ih =>
    intro s
    rcases p with ⟨n, v⟩
    have hstep : applyAll ((n, v) :: rest) s = applyAll rest (set_button s n v) := rfl
    rw [hstep, ih]
    cases hl : lastSet name rest with
    | some w => simp [lastSet, hl]
    | none =>
      by_cases hn : n = name
      · subst hn
        simp [lastSet, hl, getButton_set_self h]
      · simp [lastSet, hl, hn, getButton_set_other h hn]

/-- Claim C1: after any sequence of set_button calls on the default store,
each of the nine known logical names holds exactly the last value set for
it (false if never set); a set_button call never changes any other known
name's field; and a call with an unknown name leaves the entire store
unchanged (set_button is total and returns no error). -/
theorem C1_set_button_last_write_wins :
    (∀ (ops : List (String × Bool)), ∀ name ∈ knownNames,
        getButton (applyAll ops ButtonState.default) name = (lastSet name ops).getD false)
    ∧ (∀ (s : ButtonState) (name : String) (v : Bool), ∀ other ∈ knownNames,
        name ≠ other → getButton (set_button s name v) other = getButton s other)
    ∧ (∀ (s : ButtonState) (name : String) (v : Bool), name ∉ knownNames →
        set_button s name v = s) := by
  refine ⟨?_, ?_, ?_⟩
  · intro ops name h
    rw [applyAll_getButton h]
    have hz : getButton ButtonState.default name = false := by
      fin_cases h <;> rfl
    rw [hz]
  · intro s name v other h hne
    exact getButton_set_other h hne s v
  · intro s name v h
    exact set_button_unknown h s v

/-- Witness for C1 at concrete inputs: a press-then-release sequence for
climb reads back the last value, and an unknown name is a no-op. -/
theorem C1_set_button_last_write_wins_witness :
    getButton (applyAll [("climb", true), ("coral", true), ("climb", false)]
        ButtonState.default) ("climb")
      = (lastSet ("climb") [("climb", true), ("coral", true), ("climb", false)]).getD false
    ∧ set_button ButtonState.default ("bogus") true = ButtonState.default :=
  ⟨C1_set_button_last_write_wins.1 [("climb", true), ("coral", true), ("climb", false)]
      ("climb") (by decide),
   C1_set_button_last_write_wins.2.2 ButtonState.default ("bogus") true (by decide)⟩

/-! ## Bitmask translation lemmas -/

/-- Since the nine assigned bits are pairwise distinct, the OR
accumulation equals the sum of one fixed contribution per pressed
button. -/
theorem buttonMask_eq_sum (s : ButtonState) :
    buttonMask s =
      (if s.high then XButtons.UP else 0) + (if s.low then XButtons.DOWN else 0)
        + (if s.mid then XButtons.LEFT else 0) + (if s.intake then XButtons.RIGHT else 0)
        + (if s.climb then XButtons.START else 0) + (if s.zero then XButtons.BACK else 0)
        + (if s.intake_alga then XButtons.LB else 0) + (if s.drop_alga then XButtons.RB else 0)
        + (if s.coral then XButtons.B else 0) := by
  rcases s with ⟨c, z, i, h, m, l, co, ia, da⟩
  cases c <;> cases z <;> cases i <;> cases h <;> cases m <;> cases l <;> cases co
    <;> cases ia <;> cases da <;> rfl

/-- Each logical button can be read back from its own bit of the mask. -/
theorem buttonMask_bits (s : ButtonState) :
    Nat.testBit (buttonMask s) 0 = s.high ∧ Nat.testBit (buttonMask s) 1 = s.low
      ∧ Nat.testBit (buttonMask s) 2 = s.mid ∧ Nat.testBit (buttonMask s) 3 = s.intake
      ∧ Nat.testBit (buttonMask s) 4 = s.climb ∧ Nat.testBit (buttonMask s) 5 = s.zero
      ∧ Nat.testBit (buttonMask s) 8 = s.intake_alga
      ∧ Nat.testBit (buttonMask s) 9 = s.drop_alga
      ∧ Nat.testBit (buttonMask s) 13 = s.coral := by
  rcases s with ⟨c, z, i, h, m, l, co, ia, da⟩
  cases c <;> cases z <;> cases i <;> cases h <;> cases m <;> cases l <;> cases co
    <;> cases ia <;> cases da <;> decide

/-- The translation is injective: distinct stores give distinct masks. -/
theorem buttonMask_inj : Function.Injective buttonMask := by
  intro s t he
  obtain ⟨a0, a1, a2, a3, a4, a5, a8, a9, a13⟩ := buttonMask_bits s
  obtain ⟨b0, b1, b2, b3, b4, b5, b8, b9, b13⟩ := buttonMask_bits t
  rw [he] at a0 a1 a2 a3 a4 a5 a8 a9 a13
  refine ButtonState.ext ?_ ?_ ?_ ?_ ?_ ?_ ?_ ?_ ?_
  · exact a4.symm.trans b4
  · exact a5.symm.trans b5
  · exact a3.symm.trans b3
  · exact a0.symm.trans b0
  · exact a2.symm.trans b2
  · exact a1.symm.trans b1
  · exact a13.symm.trans b13
  · exact a8.symm.trans b8
  · exact a9.symm.trans b9

/-- Claim C2: the logical-to-hardware translation is a pure function of
the nine stored booleans; every pressed logical button ORs one fixed
hardware bit into the accumulator (equivalently, the mask is the sum of
one fixed distinct-bit contribution per pressed button); the nine
assigned bits are pairwise distinct; all non-button frame fields are
default/neutral; and the store with exactly coral and intake_alga
pressed yields a frame with exactly those two distinct bits set. -/
theorem C2_translation_bitmask :
    List.Pairwise (fun a b => a ≠ b)
      [XButtons.START, XButtons.BACK, XButtons.RIGHT, XButtons.UP, XButtons.LEFT,
        XButtons.DOWN, XButtons.B, XButtons.LB, XButtons.RB]
    ∧ (∀ s : ButtonState,
        (mkFrame s).buttons = buttonMask s
          ∧ (mkFrame s).left_trigger = 0 ∧ (mkFrame s).right_trigger = 0
          ∧ (mkFrame s).thumb_lx = 0 ∧ (mkFrame s).thumb_ly = 0
          ∧ (mkFrame s).thumb_rx = 0 ∧ (mkFrame s).thumb_ry = 0)
    ∧ (∀ s : ButtonState, buttonMask s =
        (if s.high then XButtons.UP else 0) + (if s.low then XButtons.DOWN else 0)
          + (if s.mid then XButtons.LEFT else 0) + (if s.intake then XButtons.RIGHT else 0)
          + (if s.climb then XButtons.START else 0) + (if s.zero then XButtons.BACK else 0)
          + (if s.intake_alga then XButtons.LB else 0)
          + (if s.drop_alga then XButtons.RB else 0)
          + (if s.coral then XButtons.B else 0))
    ∧ ((mkFrame coralIntakeAlga).buttons = (XButtons.B ||| XButtons.LB)
        ∧ XButtons.B ≠ XButtons.LB
        ∧ ∀ i : Nat,
            Nat.testBit (mkFrame coralIntakeAlga).buttons i = true ↔ (i = 8 ∨ i = 13)) := by
  refine ⟨by decide, fun s => ⟨rfl, rfl, rfl, rfl, rfl, rfl, rfl⟩, buttonMask_eq_sum,
    by decide, by decide, ?_⟩
  intro i
  have hb : (mkFrame coralIntakeAlga).buttons = 8448 := by decide
  rw [hb]
  by_cases h : i < 14
  · interval_cases i <;> decide
  · rw [Nat.testBit_eq_false_of_lt
      (calc (8448 : Nat) < 2 ^ 14 := by norm_num
        _ ≤ 2 ^ i := Nat.pow_le_pow_right (by norm_num) (by omega))]
    simp only [Bool.false_eq_true, false_iff]
    omega

/-- Witness for C2: bit 13 (the B button, logical coral) is set in the
frame of the coral-and-intake_alga scenario. -/
theorem C2_translation_bitmask_witness :
    Nat.testBit (mkFrame coralIntakeAlga).buttons 13 = true :=
  (C2_translation_bitmask.2.2.2.2.2 13).mpr (Or.inr rfl)

/-! ## Update-loop tick lemmas -/

/-- The field-by-field change test is reflexive-false. -/
theorem stateChanged_self (s : ButtonState) : stateChanged s s = false := by
  rcases s with ⟨c, z, i, h, m, l, co, ia, da⟩
  simp [stateChanged]

/-- The change test is false exactly on equal stores. -/
theorem stateChanged_eq_false_iff (cur last : ButtonState) :
    stateChanged cur last = false ↔ cur = last := by
  rcases cur with ⟨c, z, i, h, m, l, co, ia, da⟩
  rcases last with ⟨c', z', i', h', m', l', co', ia', da'⟩
  simp [stateChanged, ButtonState.ext_iff]
  tauto

/-- The change test holds exactly when the computed frames differ. -/
theorem stateChanged_iff_frame_ne (last cur : ButtonState) :
    stateChanged cur last = true ↔ mkFrame cur ≠ mkFrame last := by
  constructor
  · intro h hf
    have heq : cur = last :=
      buttonMask_inj (show buttonMask cur = buttonMask last from
        congrArg XGamepad.buttons hf)
    rw [heq, stateChanged_self] at h
    exact Bool.false_ne_true h
  · intro h
    by_contra hc
    have hb : stateChanged cur last = false := by
      cases hsc : stateChanged cur last
      · rfl
      · exact absurd hsc hc
    exact h (by rw [(stateChanged_eq_false_iff _ _).mp hb])

/-- Claim C3: on every tick, a push is issued if and only if the frame
computed from the snapshot differs from the previous frame; the previous
state is recorded as the snapshot exactly when they differ; the initial
previous frame is all-released; and an unchanged frame between two
consecutive ticks means zero pushes for that interval. -/
theorem C3_tick_push_iff :
    (∀ (last cur : ButtonState) (ok : Bool),
        ((tickFull last cur ok).2.1 = some (mkFrame cur) ↔ mkFrame cur ≠ mkFrame last)
          ∧ ((tickFull last cur ok).2.1 = none ↔ mkFrame cur = mkFrame last)
          ∧ (tickFull last cur ok).1 = (if mkFrame cur ≠ mkFrame last then cur else last))
    ∧ mkFrame ButtonState.default = XGamepad.neutral
    ∧ (∀ (last cur : ButtonState) (ok : Bool),
        mkFrame cur = mkFrame last → (tickFull last cur ok).2.1 = none) := by
  refine ⟨?_, by decide, ?_⟩
  · intro last cur ok
    by_cases h : stateChanged cur last = true
    · have hne := (stateChanged_iff_frame_ne last cur).mp h
      refine ⟨?_, ?_, ?_⟩ <;> simp [tickFull, h, hne]
    · have hb : stateChanged cur last = false := by
        cases hsc : stateChanged cur last
        · rfl
        · exact absurd hsc h
      have heq : cur = last := (stateChanged_eq_false_iff _ _).mp hb
      subst heq
      refine ⟨?_, ?_, ?_⟩ <;> simp [tickFull, stateChanged_self]
  · intro last cur ok hf
    have heq : cur = last :=
      buttonMask_inj (show buttonMask cur = buttonMask last from
        congrArg XGamepad.buttons hf)
    subst heq
    simp [tickFull, stateChanged_self]

/-- Witness for C3: on equal frames (default vs default) the tick pushes
nothing. -/
theorem C3_tick_push_iff_witness :
    (tickFull ButtonState.default ButtonState.default true).2.1 = none :=
  C3_tick_push_iff.2.2 ButtonState.default ButtonState.default true rfl

/-! ## Lifecycle theorems -/

/-- Claim C4: the lifecycle entry point returns true exactly when bus
connect, target plug-in and wait-ready all succeed; on any failure it
returns false having changed nothing, so on a fresh controller the
running flag stays false, no thread is spawned, no target handle is
stored, and set_button still mutates the store. -/
theorem C4_init_contract :
    (∀ (env : InitEnv) (c : VirtualController),
        (initCtrl env c).1 = false → (initCtrl env c).2 = c)
    ∧ (∀ env : InitEnv,
        ((initCtrl env VirtualController.new).1 = true ↔
          (env.connect_ok = true ∧ env.plugin_ok = true ∧ env.wait_ready_ok = true)))
    ∧ (∀ env : InitEnv, (initCtrl env VirtualController.new).1 = false →
        (initCtrl env VirtualController.new).2.running = false
          ∧ (initCtrl env VirtualController.new).2.control_thread = none
          ∧ (initCtrl env VirtualController.new).2.target = none
          ∧ ∀ (n : String) (v : Bool),
              ((initCtrl env VirtualController.new).2.setButton n v).button_state
                = set_button ButtonState.default n v) := by
  refine ⟨?_, ?_, ?_⟩
  · intro env c
    rcases env with ⟨co, po, wo⟩
    cases co <;> cases po <;> cases wo <;> simp [initCtrl]
  · intro env
    rcases env with ⟨co, po, wo⟩
    cases co <;> cases po <;> cases wo <;> simp [initCtrl]
  · intro env
    rcases env with ⟨co, po, wo⟩
    cases co <;> cases po <;> cases wo <;>
      simp [initCtrl, VirtualController.new, VirtualController.setButton]

/-- Witness for C4: with the bus connect failing, the fresh controller's
running flag stays false. -/
theorem C4_init_contract_witness :
    (initCtrl ⟨false, true, true⟩ VirtualController.new).2.running = false :=
  (C4_init_contract.2.2 ⟨false, true, true⟩ rfl).1

/-- Claim C5: shutdown is idempotent — a second call is a no-op — and
shutdown of a controller whose running flag is down (in particular one
never successfully initialized) changes nothing; a shutdown of a running
controller clears the flag and all handles. -/
theorem C5_shutdown_idempotent :
    ∀ c : VirtualController,
      shutdown (shutdown c) = shutdown c
        ∧ (c.running = false → shutdown c = c)
        ∧ (c.running = true →
            (shutdown c).running = false ∧ (shutdown c).control_thread = none
              ∧ (shutdown c).target = none ∧ (shutdown c).client = none) := by
  intro c
  cases hc : c.running <;> simp [shutdown, hc]

/-- Witness for C5: shutdown of the fresh controller is a no-op. -/
theorem C5_shutdown_idempotent_witness :
    shutdown VirtualController.new = VirtualController.new :=
  (C5_shutdown_idempotent VirtualController.new).2.1 rfl

/-- Claim C8: Drop invokes shutdown, so the end state of a dropped
controller equals that of one shut down first; and on every state
reachable through the public lifecycle (which all satisfy the stated
invariant) the dropped controller holds no registered target. -/
theorem C8_drop_equals_shutdown :
    (∀ c : VirtualController, dropCtrl c = dropCtrl (shutdown c))
    ∧ (∀ c : VirtualController, VirtualController.inv c → (dropCtrl c).target = none)
    ∧ VirtualController.inv VirtualController.new
    ∧ (∀ (env : InitEnv) (c : VirtualController),
        VirtualController.inv c → VirtualController.inv (initCtrl env c).2)
    ∧ (∀ c : VirtualController,
        VirtualController.inv c → VirtualController.inv (shutdown c))
    ∧ (∀ (c : VirtualController) (n : String) (v : Bool),
        VirtualController.inv c → VirtualController.inv (c.setButton n v)) := by
  refine ⟨?_, ?_, ?_, ?_, ?_, ?_⟩
  · intro c
    cases hc : c.running <;> simp [dropCtrl, shutdown, hc]
  · intro c hinv
    cases hc : c.running
    · have ht := hinv hc
      simp [dropCtrl, shutdown, hc, ht]
    · simp [dropCtrl, shutdown, hc]
  · intro _
    rfl
  · intro env c hinv
    rcases env with ⟨co, po, wo⟩
    cases co
    · exact hinv
    · cases po
      · exact hinv
      · cases wo
        · exact hinv
        · exact fun hr => absurd hr (by simp [initCtrl])
  · intro c hinv
    cases hc : c.running
    · have hs : shutdown c = c := by simp [shutdown, hc]
      rw [hs]
      exact hinv
    · intro _
      simp [shutdown, hc]
  · intro c n v hinv
    exact hinv

/-- Witness for C8: dropping a fresh controller leaves no target
registered. -/
theorem C8_drop_equals_shutdown_witness :
    (dropCtrl VirtualController.new).target = none :=
  C8_drop_equals_shutdown.2.1 VirtualController.new (fun _ => rfl)

/-! ## Loop termination shape and error containment -/

/-- Claim C6: the loop reads the running flag at the start of every
iteration; an iteration that observes the flag false issues no push and
exits at once (so the run is determined by the longest all-true prefix of
flag observations — the discrete analogue of termination within one
cadence interval); and shutdown of a running controller joins the loop
thread before releasing the device handles. -/
theorem C6_loop_flag_shutdown :
    (∀ (last snap : ButtonState) (ok : Bool) (rest : List (Bool × ButtonState × Bool)),
        loopRun last ((false, snap, ok) :: rest) = [])
    ∧ (∀ (last : ButtonState) (obs : List (Bool × ButtonState × Bool)),
        loopRun last obs = loopRun last (obs.takeWhile fun x => x.1))
    ∧ (∀ c : VirtualController, c.running = true → c.control_thread = some () →
        shutdownTrace c
          = [SAction.storeFlagFalse, SAction.joinThread, SAction.clearTarget,
              SAction.clearClient]) := by
  refine ⟨?_, ?_, ?_⟩
  · intro last snap ok rest
    rfl
  · intro last obs
    induction obs generalizing last with
    | nil => rfl
    | cons p rest ih =>
      rcases p with ⟨flag, snap, ok⟩
      cases flag
      · rfl
      · simp [loopRun, List.takeWhile, ih]
  · intro c h1 h2
    simp [shutdownTrace, h1, h2]

/-- Witness for C6: the shutdown trace of a running controller with a
live thread handle joins the thread before clearing the handles. -/
theorem C6_loop_flag_shutdown_witness :
    shutdownTrace ⟨none, some (), some (), true, ButtonState.default⟩
      = [SAction.storeFlagFalse, SAction.joinThread, SAction.clearTarget,
          SAction.clearClient] :=
  C6_loop_flag_shutdown.2.2 ⟨none, some (), some (), true, ButtonState.default⟩ rfl rfl

/-- Claim C7: a failed push only adds a log line — the recorded previous
state and the pushed frame of the tick are the same as on success, the
loop body is total and the loop continues with the rest of its
observations — and because the previous state is updated at the failing
tick, the next tick on the same unchanged snapshot pushes nothing. -/
theorem C7_push_failure_nonfatal :
    (∀ (last cur : ButtonState) (ok : Bool),
        (tickFull last cur ok).1 = (tickFull last cur true).1
          ∧ (tickFull last cur ok).2.1 = (tickFull last cur true).2.1)
    ∧ (∀ last cur : ButtonState, stateChanged cur last = true →
        (tickFull last cur false).2.2 = [pushFailLog]
          ∧ (tickFull last cur false).1 = cur
          ∧ ∀ ok2 : Bool, (tickFull cur cur ok2).2.1 = none)
    ∧ (∀ (last cur : ButtonState) (rest : List (Bool × ButtonState × Bool)),
        loopRun last ((true, cur, false) :: rest)
          = ((tickFull last cur false).2.1).toList
              ++ loopRun (tickFull last cur false).1 rest) := by
  refine ⟨?_, ?_, ?_⟩
  · intro last cur ok
    cases hs : stateChanged cur last <;> cases ok <;> simp [tickFull, hs]
  · intro last cur h
    refine ⟨?_, ?_, ?_⟩ <;> simp [tickFull, h, stateChanged_self]
  · intro last cur rest
    rfl

/-- Witness for C7: a failing push on a changed tick logs and records the
new state. -/
theorem C7_push_failure_nonfatal_witness :
    (tickFull ButtonState.default coralIntakeAlga false).2.2 = [pushFailLog] :=
  (C7_push_failure_nonfatal.2.1 ButtonState.default coralIntakeAlga (by decide)).1

/-! ## UI layer and TCP probe -/

/-- Claim C9: a button release received while the connected flag is false
leaves the UI state, in particular the button store, completely
unchanged; so a button pressed while connected stays recorded as pressed
in the store when connectivity is lost before the release arrives. -/
theorem C9_release_ignored_when_disconnected :
    (∀ (u : UIState) (name : String), u.connected = false → on_button_released u name = u)
    ∧ (∀ (u : UIState) (name : String), u.connected = true → u.has_controller = true →
        name ∈ knownNames →
          getButton (on_button_pressed u name).store name = true
            ∧ getButton
                (on_button_released
                  { on_button_pressed u name with connected := false } name).store
                name = true) := by
  refine ⟨?_, ?_⟩
  · intro u name h
    simp [on_button_released, h]
  · intro u name hc hh hm
    have hp : on_button_pressed u name = { u with store := set_button u.store name true } := by
      simp [on_button_pressed, hc, hh]
    have hr : on_button_released { on_button_pressed u name with connected := false } name
        = { on_button_pressed u name with connected := false } := by
      simp [on_button_released]
    constructor
    · rw [hp]
      exact getButton_set_self hm u.store true
    · rw [hr, hp]
      exact getButton_set_self hm u.store true

/-- Witness for C9: a release of climb while disconnected is a no-op. -/
theorem C9_release_ignored_when_disconnected_witness :
    on_button_released ⟨false, true, ButtonState.default⟩ ("climb")
      = ⟨false, true, ButtonState.default⟩ :=
  C9_release_ignored_when_disconnected.1 ⟨false, true, ButtonState.default⟩ ("climb") rfl

/-- Claim C10: when the configured address fails to parse and
force_connected is off, the probe is not skipped: an error is logged, the
probed target is the substitute 127.0.0.1:22, and the connected flag
becomes exactly the reachability of that substitute target — in
particular true when local port 22 answers. -/
theorem C10_ping_parse_fallback :
    ∀ (conn : Bool) (reach : SockAddr → Bool),
      (pingTcp false conn none reach).2.1 = some fallbackAddr
        ∧ (pingTcp false conn none reach).2.2 = [invalidAddrLog]
        ∧ (pingTcp false conn none reach).1 = reach fallbackAddr
        ∧ (reach fallbackAddr = true → (pingTcp false conn none reach).1 = true) := by
  intro conn reach
  cases hr : reach fallbackAddr <;> simp [pingTcp, hr]

/-- Witness for C10: with an unparseable address and local port 22
reachable, the flag becomes true. -/
theorem C10_ping_parse_fallback_witness :
    (pingTcp false false none (fun _ => true)).1 = true :=
  (C10_ping_parse_fallback false (fun _ => true)).2.2.2 rfl

end FRC
